import Mathlib

/-!
Shallow embedding of `src/static/flipbook-viewer.js` (FLIPBOOK repository):
the annotation coordinate model, the annotation cache and its remote-call
response handlers, the interaction-mode controller, the render/sync layer,
and the standalone `Flipbook` page-turn class.

Pixel and percentage coordinates are modelled as rational numbers; the
DOM annotation layer of a page is modelled as a list of elements; remote
call outcomes are modelled as an explicit response datatype covering the
success, application-failure (`success:false`) and network-failure cases.
-/

/-- A note record, as stored in the `allNotes` cache
(`{id, page_number, content, x, y}` in the source). -/
structure Note where
  id : Nat
  page_number : Int
  content : String
  x : Rat
  y : Rat
deriving DecidableEq

/-- A highlight rectangle `{x, y, w, h}` in percentage coordinates. -/
structure Rect where
  x : Rat
  y : Rat
  w : Rat
  h : Rat
deriving DecidableEq

/-- A highlight record, as stored in the `allHighlights` cache.
`color` is `none` when the JSON field is absent; the empty string models a
present-but-falsy value. -/
structure Highlight where
  id : Nat
  page_number : Int
  coordinates : Rect
  color : Option String
deriving DecidableEq

/-- Rectangle normalization used by both the `mousemove` preview handler and
the `mouseup` handler: `left = min`, `top = min`, `width/height = abs` of
the deltas (source lines 310-313 and 341-344). -/
def normRect (x1 y1 x2 y2 : Rat) : Rect :=
  { x := min x1 x2, y := min y1 y2, w := |x2 - x1|, h := |y2 - y1| }

/-- The `mouseup`/`touchend` highlight-completion computation (source lines
336-360): if either raw pixel delta exceeds 10, the normalized rectangle is
converted to percentages of the layer size and a highlight is produced;
otherwise the drag is discarded. -/
def mouseupHighlightRect (startX startY endX endY layerW layerH : Rat) : Option Rect :=
  if 10 < |endX - startX| ∨ 10 < |endY - startY| then
    some { x := min startX endX / layerW * 100,
           y := min startY endY / layerH * 100,
           w := |endX - startX| / layerW * 100,
           h := |endY - startY| / layerH * 100 }
  else
    none

/-- C2: for any two corner points, the normalized rectangle has non-negative
width and height, `(x,y)` is the component-wise minimum of the corners, the
width and height are the absolute deltas, and swapping the two corners yields
exactly the same rectangle. -/
theorem normRect_spec (x1 y1 x2 y2 : Rat) :
    0 ≤ (normRect x1 y1 x2 y2).w ∧ 0 ≤ (normRect x1 y1 x2 y2).h ∧
    (normRect x1 y1 x2 y2).x = min x1 x2 ∧ (normRect x1 y1 x2 y2).y = min y1 y2 ∧
    (normRect x1 y1 x2 y2).w = |x2 - x1| ∧ (normRect x1 y1 x2 y2).h = |y2 - y1| ∧
    normRect x2 y2 x1 y1 = normRect x1 y1 x2 y2 := by
  refine ⟨abs_nonneg _, abs_nonneg _, rfl, rfl, rfl, rfl, ?_⟩
  simp [normRect, min_comm, abs_sub_comm]

/-- C3: a highlight drag is discarded exactly when both raw pixel deltas are
at most 10 (threshold applied before percentage conversion); on a 1000x700
surface a drag from (10,10) to (12,11) produces no highlight, while a drag
from (10,10) to (150,150) produces `w = 14%` and `h = 20%`. -/
theorem mouseupHighlightRect_spec (startX startY endX endY layerW layerH : Rat) :
    (mouseupHighlightRect startX startY endX endY layerW layerH = none ↔
      |endX - startX| ≤ 10 ∧ |endY - startY| ≤ 10) ∧
    mouseupHighlightRect 10 10 12 11 1000 700 = none ∧
    mouseupHighlightRect 10 10 150 150 1000 700 =
      some { x := 1, y := 10/7, w := 14, h := 20 } := by
  refine ⟨?_, ?_, ?_⟩
  · unfold mouseupHighlightRect
    split
    · rename_i h
      refine iff_of_false (by simp) (fun hc => ?_)
      rcases h with h | h
      · exact absurd hc.1 (not_le.mpr h)
      · exact absurd hc.2 (not_le.mpr h)
    · rename_i h
      push_neg at h
      exact iff_of_true rfl h
  · have h1 : |(12 : Rat) - 10| = 2 := by norm_num
    have h2 : |(11 : Rat) - 10| = 1 := by norm_num
    simp only [mouseupHighlightRect, h1, h2]
    norm_num
  · have h1 : |(150 : Rat) - 10| = 140 := by norm_num
    simp only [mouseupHighlightRect, h1]
    norm_num

/-- An element inside a page's DOM subtree: a rendered note marker, a
rendered highlight marker (carrying the color class computed by
`renderHighlight`), or any other element (image, layer chrome, ...). -/
inductive LayerElem where
  | noteMarker (n : Note)
  | highlightMarker (h : Highlight) (colorClass : String)
  | otherElem
deriving DecidableEq

/-- Whether an element matches the jQuery selector
`.note-marker, .highlight-marker`. -/
def isAnnotationMarker : LayerElem → Bool
  | .noteMarker _ => true
  | .highlightMarker _ _ => true
  | .otherElem => false

/-- `renderHighlight`'s color class (source line 79):
`highlight-` followed by `hl.color || 'yellow'` — the JS `||` falls back to
yellow only for a falsy value (absent field or empty string). -/
def renderHighlightColorClass (hl : Highlight) : String :=
  "highlight-" ++ (match hl.color with
    | none => "yellow"
    | some s => if s = "" then "yellow" else s)

/-- `renderNote` (source lines 58-74): appends a note marker to the page's
annotation layer. -/
def renderNote (note : Note) (layer : List LayerElem) : List LayerElem :=
  layer ++ [.noteMarker note]

/-- `renderHighlight` (source lines 76-88): appends a highlight marker with
the computed color class to the page's annotation layer. -/
def renderHighlight (hl : Highlight) (layer : List LayerElem) : List LayerElem :=
  layer ++ [.highlightMarker hl (renderHighlightColorClass hl)]

/-- `loadAnnotations` (source lines 45-56): removes every existing
note/highlight marker from the page element, then renders one marker for
each cached note and each cached highlight whose `page_number` matches. -/
def loadAnnotations (pageNum : Int) (notes : List Note) (highlights : List Highlight)
    (layer : List LayerElem) : List LayerElem :=
  let cleared := layer.filter (fun e => !isAnnotationMarker e)
  let withNotes := (notes.filter (fun n => n.page_number = pageNum)).foldl
    (fun acc n => renderNote n acc) cleared
  (highlights.filter (fun h => h.page_number = pageNum)).foldl
    (fun acc h => renderHighlight h acc) withNotes

/-- Outcome of a `POST` create call as seen by the `.then`/`.catch`
handlers: `ok id` for `{success: true, id}`, `err msg` for a response with
falsy `success` (carrying `d.error` when present), `netFail` for a fetch
rejection or non-JSON body. -/
inductive CreateResponse where
  | ok (id : Nat)
  | err (msg : Option String)
  | netFail
deriving DecidableEq

/-- The note-creation response handler (source lines 249-262): on success
the new note (with the server id) is pushed onto `allNotes` and rendered; on
`success:false` or network failure an alert is shown and nothing changes.
Returns `(allNotes, page layer, alerts shown)`. -/
def handleCreateNoteResponse (resp : CreateResponse) (pageNum : Int) (content : String)
    (x y : Rat) (allNotes : List Note) (layer : List LayerElem) :
    List Note × List LayerElem × List String :=
  match resp with
  | .ok id =>
      let newNote : Note := { id := id, page_number := pageNum, content := content, x := x, y := y }
      (allNotes ++ [newNote], renderNote newNote layer, [])
  | .err msg => (allNotes, layer, ["Error: " ++ msg.getD "Failed to create note"])
  | .netFail => (allNotes, layer, ["Network error: Failed to create note"])

/-- The highlight-creation response handler (source lines 361-374): same
contract for `allHighlights`, the created record carrying the drawn
rectangle and the currently selected color. -/
def handleCreateHighlightResponse (resp : CreateResponse) (pageNum : Int) (rect : Rect)
    (color : String) (allHighlights : List Highlight) (layer : List LayerElem) :
    List Highlight × List LayerElem × List String :=
  match resp with
  | .ok id =>
      let newHl : Highlight :=
        { id := id, page_number := pageNum, coordinates := rect, color := some color }
      (allHighlights ++ [newHl], renderHighlight newHl layer, [])
  | .err msg => (allHighlights, layer, ["Error: " ++ msg.getD "Failed to create highlight"])
  | .netFail => (allHighlights, layer, ["Network error: Failed to create highlight"])

/-- JS truthiness of a `prompt` result: `null` (cancelled) and the empty
string are falsy. -/
def jsTruthy : Option String → Bool
  | none => false
  | some s => s ≠ ""

/-- The synchronous part of the `.annotations-layer` click handler in note
mode (source lines 241-265) composed with the response handler when a call
is made: `prompt` returning `null` or `""` issues no fetch and shows no
alert; a truthy result issues the fetch whose response is then handled.
`setMode(null)` runs in either case. Returns
`(call made, allNotes, layer, alerts, new mode)` where the mode is the
`currentMode` value after the handler. -/
def noteClickAction (promptResult : Option String) (resp : CreateResponse) (pageNum : Int)
    (x y : Rat) (allNotes : List Note) (layer : List LayerElem) :
    Bool × List Note × List LayerElem × List String × Option String :=
  if jsTruthy promptResult then
    let r := handleCreateNoteResponse resp pageNum (promptResult.getD "") x y allNotes layer
    (true, r.1, r.2.1, r.2.2, none)
  else
    (false, allNotes, layer, [], none)

/-- Outcome of a `DELETE` call: `ok` for `{success: true}`, `err msg` for a
falsy `success`, `netFail` for a fetch rejection. -/
inductive DeleteResponse where
  | ok
  | err (msg : Option String)
  | netFail
deriving DecidableEq

/-- `deleteNote` (source lines 431-447): a `confirm` dialog gates the remote
call; on success the clicked marker is removed from the DOM and the cache is
filtered by id; otherwise an alert is shown and nothing changes. Returns
`(call made, allNotes, layer, alerts)`. -/
def deleteNoteOp (confirmed : Bool) (resp : DeleteResponse) (id : Nat)
    (allNotes : List Note) (layer : List LayerElem) :
    Bool × List Note × List LayerElem × List String :=
  if !confirmed then
    (false, allNotes, layer, [])
  else
    match resp with
    | .ok =>
        (true, allNotes.filter (fun n => n.id ≠ id),
         layer.filter (fun e => match e with | .noteMarker n => n.id ≠ id | _ => true), [])
    | .err msg => (true, allNotes, layer, ["Error: " ++ msg.getD "Failed to delete note"])
    | .netFail => (true, allNotes, layer, ["Network error: Failed to delete note"])

/-- `deleteHighlight` (source lines 449-465): same contract for highlights. -/
def deleteHighlightOp (confirmed : Bool) (resp : DeleteResponse) (id : Nat)
    (allHighlights : List Highlight) (layer : List LayerElem) :
    Bool × List Highlight × List LayerElem × List String :=
  if !confirmed then
    (false, allHighlights, layer, [])
  else
    match resp with
    | .ok =>
        (true, allHighlights.filter (fun h => h.id ≠ id),
         layer.filter (fun e => match e with | .highlightMarker h _ => h.id ≠ id | _ => true), [])
    | .err msg => (true, allHighlights, layer, ["Error: " ++ msg.getD "Failed to delete highlight"])
    | .netFail => (true, allHighlights, layer, ["Network error: Failed to delete highlight"])

/-- The interaction modes other than browsing: `currentMode` in the source is
`'note'`, `'highlight'` or `null`, modelled as `Option InteractionMode` with
`none` standing for browse. -/
inductive InteractionMode where
  | note
  | highlight
deriving DecidableEq

/-- `toggleMode` (source lines 400-403): `setMode(null)` when the current
mode equals the requested one, `setMode(mode)` otherwise; `setMode` simply
stores its argument in `currentMode`. -/
def toggleMode (current requested : Option InteractionMode) : Option InteractionMode :=
  if current = requested then none else requested

/-- A fetched JSON body: an array of records, or any non-array value
(rejected by the `Array.isArray` guard). -/
inductive JsonBody (α : Type) where
  | arr (xs : List α)
  | nonArray

/-- Outcome of one `fetch(...).then(r => r.json())` leg of the preload. -/
inductive FetchOutcome (α : Type) where
  | ok (body : JsonBody α)
  | failed

/-- `preloadAnnotations` (source lines 27-42): the two fetches are joined by
`Promise.all`; if both succeed, each cache is set to the fetched array (or
`[]` when the body is not an array); if either fails, the `catch` sets both
caches to `[]` and logs the error. Returns
`(allNotes, allHighlights, console errors)`. -/
def preloadAnnotations (notesRes : FetchOutcome Note) (hlRes : FetchOutcome Highlight) :
    List Note × List Highlight × List String :=
  match notesRes, hlRes with
  | .ok nb, .ok hb =>
      ((match nb with | .arr xs => xs | .nonArray => []),
       (match hb with | .arr xs => xs | .nonArray => []), [])
  | _, _ => ([], [], ["Failed to load annotations"])

/-- The dynamic preview style chosen on `mousedown` in highlight mode
(source lines 288-294): `colorStyles[currentHighlightColor]`, i.e. the entry
of the four-color table when the name matches, nothing otherwise. -/
def colorStylesEntry (c : String) : Option (String × String) :=
  if c = "yellow" then some ("rgba(255, 255, 0, 0.4)", "rgba(255, 165, 0, 0.8)")
  else if c = "green" then some ("rgba(34, 197, 94, 0.4)", "rgba(34, 197, 94, 0.8)")
  else if c = "pink" then some ("rgba(244, 114, 182, 0.4)", "rgba(244, 114, 182, 0.8)")
  else if c = "blue" then some ("rgba(59, 130, 246, 0.4)", "rgba(59, 130, 246, 0.8)")
  else none

/-- `colorStyles[currentHighlightColor] || colorStyles.yellow`
(source line 294): the preview style falls back to the yellow entry for any
unknown color name. -/
def previewStyle (c : String) : String × String :=
  (colorStylesEntry c).getD ("rgba(255, 255, 0, 0.4)", "rgba(255, 165, 0, 0.8)")

/-- The mutable state of the standalone `Flipbook` class that the page-turn
logic reads and writes: `currentSpread` and `isAnimating`
(constructor, source lines 470-482, sets them to `1` and `false`). -/
structure FlipState where
  currentSpread : Int
  isAnimating : Bool
deriving DecidableEq

/-- Number of `page-wrapper` elements built by `renderPages` (source lines
494-518): one per spread, `data-index` running `1, 2, ...` for
`i = 0, 2, 4, ... < totalPages`, i.e. `ceil(totalPages / 2)` of them. -/
def numSpreads (totalPages : Nat) : Nat :=
  (totalPages + 1) / 2

/-- Whether `querySelector` finds a `page-wrapper` with the given
`data-index`: exactly the indices `1 .. numSpreads totalPages` exist. -/
def wrapperExists (totalPages : Nat) (i : Int) : Bool :=
  1 ≤ i ∧ i ≤ (numSpreads totalPages : Int)

/-- `Flipbook.nextPage` (source lines 538-549): a no-op while animating or
when the wrapper for the current spread is missing; otherwise flips it,
increments `currentSpread` and starts the animation. -/
def nextPage (totalPages : Nat) (s : FlipState) : FlipState :=
  if s.isAnimating then s
  else if wrapperExists totalPages s.currentSpread then
    { currentSpread := s.currentSpread + 1, isAnimating := true }
  else s

/-- `Flipbook.prevPage` (source lines 550-562): a no-op while animating or
when `currentSpread <= 1`; otherwise it decrements `currentSpread` first and
only then looks up the wrapper — when the wrapper is missing it returns with
the decremented value and no animation. -/
def prevPage (totalPages : Nat) (s : FlipState) : FlipState :=
  if s.isAnimating then s
  else if s.currentSpread ≤ 1 then s
  else if wrapperExists totalPages (s.currentSpread - 1) then
    { currentSpread := s.currentSpread - 1, isAnimating := true }
  else
    { s with currentSpread := s.currentSpread - 1 }

/-- The `setTimeout` callback clearing `isAnimating` after 1000 ms. -/
def animationEnd (s : FlipState) : FlipState :=
  { s with isAnimating := false }

/-- The states the `Flipbook` instance can reach from the constructor's
initial state through its three state-changing events. -/
inductive FlipReachable (totalPages : Nat) : FlipState → Prop where
  | init : FlipReachable totalPages { currentSpread := 1, isAnimating := false }
  | next {s} : FlipReachable totalPages s → FlipReachable totalPages (nextPage totalPages s)
  | prev {s} : FlipReachable totalPages s → FlipReachable totalPages (prevPage totalPages s)
  | animEnd {s} : FlipReachable totalPages s → FlipReachable totalPages (animationEnd s)

/-- C1: `createNote`/`createHighlight` mutate the cache and render a marker
exactly when the remote call returns success with a generated id; on
`success:false` or a network error, the cache and the page layer are
unchanged and an alert is shown (the handler is total, so nothing throws). -/
theorem createSuccessOnly_spec (resp : CreateResponse) (pageNum : Int) (content : String)
    (x y : Rat) (rect : Rect) (color : String) (allNotes : List Note)
    (allHighlights : List Highlight) (nlayer hlayer : List LayerElem) :
    (∃ id, resp = CreateResponse.ok id ∧
      handleCreateNoteResponse resp pageNum content x y allNotes nlayer =
        (allNotes ++ [{ id := id, page_number := pageNum, content := content, x := x, y := y }],
         nlayer ++ [.noteMarker { id := id, page_number := pageNum, content := content, x := x, y := y }],
         []) ∧
      handleCreateHighlightResponse resp pageNum rect color allHighlights hlayer =
        (allHighlights ++ [{ id := id, page_number := pageNum, coordinates := rect, color := some color }],
         hlayer ++ [.highlightMarker
            { id := id, page_number := pageNum, coordinates := rect, color := some color }
            (renderHighlightColorClass
              { id := id, page_number := pageNum, coordinates := rect, color := some color })],
         [])) ∨
    ((handleCreateNoteResponse resp pageNum content x y allNotes nlayer).1 = allNotes ∧
     (handleCreateNoteResponse resp pageNum content x y allNotes nlayer).2.1 = nlayer ∧
     (handleCreateNoteResponse resp pageNum content x y allNotes nlayer).2.2 ≠ [] ∧
     (handleCreateHighlightResponse resp pageNum rect color allHighlights hlayer).1 = allHighlights ∧
     (handleCreateHighlightResponse resp pageNum rect color allHighlights hlayer).2.1 = hlayer ∧
     (handleCreateHighlightResponse resp pageNum rect color allHighlights hlayer).2.2 ≠ []) := by
  cases resp with
  | ok id => exact Or.inl ⟨id, rfl, rfl, rfl⟩
  | err msg =>
      exact Or.inr ⟨rfl, rfl, by simp [handleCreateNoteResponse], rfl, rfl,
        by simp [handleCreateHighlightResponse]⟩
  | netFail =>
      exact Or.inr ⟨rfl, rfl, by simp [handleCreateNoteResponse], rfl, rfl,
        by simp [handleCreateHighlightResponse]⟩

/-- C8: a cancelled (`null`) or empty prompt result silently aborts note
placement: no remote call is issued, the cache and the page layer are
unchanged, no alert is shown, and the mode still resets to browse. -/
theorem noteClickAbort_spec (resp : CreateResponse) (pageNum : Int) (x y : Rat)
    (allNotes : List Note) (layer : List LayerElem) :
    noteClickAction none resp pageNum x y allNotes layer =
      (false, allNotes, layer, [], none) ∧
    noteClickAction (some "") resp pageNum x y allNotes layer =
      (false, allNotes, layer, [], none) := by
  constructor <;> simp [noteClickAction, jsTruthy]

/-- C4: deletion is gated on the `confirm` dialog (no remote call and no
change when declined); a successful response removes exactly the entry with
the given id from the cache and its markers from the DOM; `success:false`
or a network error leaves cache and DOM untouched and reports the error. -/
theorem deleteOps_spec (resp : DeleteResponse) (msg : Option String) (id : Nat)
    (allNotes : List Note) (allHighlights : List Highlight) (nlayer hlayer : List LayerElem) :
    deleteNoteOp false resp id allNotes nlayer = (false, allNotes, nlayer, []) ∧
    deleteHighlightOp false resp id allHighlights hlayer = (false, allHighlights, hlayer, []) ∧
    (deleteNoteOp true .ok id allNotes nlayer).1 = true ∧
    (∀ n : Note, n ∈ (deleteNoteOp true .ok id allNotes nlayer).2.1 ↔
      n ∈ allNotes ∧ n.id ≠ id) ∧
    (∀ n : Note, LayerElem.noteMarker n ∈ (deleteNoteOp true .ok id allNotes nlayer).2.2.1 ↔
      LayerElem.noteMarker n ∈ nlayer ∧ n.id ≠ id) ∧
    (∀ (hl : Highlight), hl ∈ (deleteHighlightOp true .ok id allHighlights hlayer).2.1 ↔
      hl ∈ allHighlights ∧ hl.id ≠ id) ∧
    (∀ (hl : Highlight) (cc : String),
      LayerElem.highlightMarker hl cc ∈ (deleteHighlightOp true .ok id allHighlights hlayer).2.2.1 ↔
      LayerElem.highlightMarker hl cc ∈ hlayer ∧ hl.id ≠ id) ∧
    deleteNoteOp true (.err msg) id allNotes nlayer =
      (true, allNotes, nlayer, ["Error: " ++ msg.getD "Failed to delete note"]) ∧
    deleteNoteOp true .netFail id allNotes nlayer =
      (true, allNotes, nlayer, ["Network error: Failed to delete note"]) ∧
    deleteHighlightOp true (.err msg) id allHighlights hlayer =
      (true, allHighlights, hlayer, ["Error: " ++ msg.getD "Failed to delete highlight"]) ∧
    deleteHighlightOp true .netFail id allHighlights hlayer =
      (true, allHighlights, hlayer, ["Network error: Failed to delete highlight"]) := by
  refine ⟨rfl, rfl, rfl, ?_, ?_, ?_, ?_, rfl, rfl, rfl, rfl⟩
  · intro n
    simp [deleteNoteOp, List.mem_filter]
  · intro n
    simp [deleteNoteOp, List.mem_filter]
  · intro hl
    simp [deleteHighlightOp, List.mem_filter]
  · intro hl cc
    simp [deleteHighlightOp, List.mem_filter]

/-- C5: the mode is always browse, note or highlight (by the type of
`currentMode`); toggling the active mode returns to browse, toggling a
different mode activates it, and activating note mode then highlight mode
leaves exactly highlight mode active. -/
theorem toggleMode_spec :
    (∀ m : Option InteractionMode,
      m = none ∨ m = some InteractionMode.note ∨ m = some InteractionMode.highlight) ∧
    (∀ r : Option InteractionMode, toggleMode r r = none) ∧
    (∀ c r : Option InteractionMode, c ≠ r → toggleMode c r = r) ∧
    toggleMode (toggleMode none (some InteractionMode.note)) (some InteractionMode.highlight) =
      some InteractionMode.highlight := by
  refine ⟨?_, ?_, ?_, by decide⟩
  · rintro (_ | (_ | _)) <;> simp
  · intro r
    simp [toggleMode]
  · intro c r hne
    simp [toggleMode, hne]

/-- Witness for C5's conditional conjunct at a concrete input. -/
theorem toggleMode_spec_witness :
    toggleMode (some InteractionMode.note) (some InteractionMode.highlight) =
      some InteractionMode.highlight :=
  toggleMode_spec.2.2.1 (some InteractionMode.note) (some InteractionMode.highlight) (by decide)

/-- C7: the joined preload sets both caches from the fetched arrays when
both fetches succeed (coercing non-array bodies to empty), and resets both
caches to empty with a logged (not thrown) error when either fetch fails. -/
theorem preloadAnnotations_spec (notesList : List Note) (hlList : List Highlight) :
    preloadAnnotations (.ok (.arr notesList)) (.ok (.arr hlList)) = (notesList, hlList, []) ∧
    preloadAnnotations (.ok .nonArray) (.ok (.arr hlList)) = ([], hlList, []) ∧
    preloadAnnotations (.ok (.arr notesList)) (.ok .nonArray) = (notesList, [], []) ∧
    (∀ r1 : FetchOutcome Note,
      preloadAnnotations r1 .failed = ([], [], ["Failed to load annotations"])) ∧
    (∀ r2 : FetchOutcome Highlight,
      preloadAnnotations .failed r2 = ([], [], ["Failed to load annotations"])) := by
  refine ⟨rfl, rfl, rfl, ?_, ?_⟩
  · intro r1
    cases r1 <;> rfl
  · intro r2
    cases r2 <;> rfl

/-- Folding `renderNote` over a list appends one note marker per note. -/
theorem foldl_renderNote (ns : List Note) (acc : List LayerElem) :
    ns.foldl (fun a n => renderNote n a) acc = acc ++ ns.map LayerElem.noteMarker := by
  induction ns generalizing acc with
  | nil => simp
  | cons n ns ih =>
      rw [List.foldl_cons, ih]
      simp [renderNote]

/-- Folding `renderHighlight` over a list appends one highlight marker per
highlight, each with its computed color class. -/
theorem foldl_renderHighlight (hs : List Highlight) (acc : List LayerElem) :
    hs.foldl (fun a h => renderHighlight h a) acc =
      acc ++ hs.map (fun h => LayerElem.highlightMarker h (renderHighlightColorClass h)) := by
  induction hs generalizing acc with
  | nil => simp
  | cons h hs ih =>
      rw [List.foldl_cons, ih]
      simp [renderHighlight]

/-- `loadAnnotations` in closed form: the non-marker elements survive, then
one marker per matching note, then one per matching highlight. -/
theorem loadAnnotations_eq (pageNum : Int) (notes : List Note) (highlights : List Highlight)
    (layer : List LayerElem) :
    loadAnnotations pageNum notes highlights layer =
      layer.filter (fun e => !isAnnotationMarker e)
        ++ (notes.filter (fun n => n.page_number = pageNum)).map LayerElem.noteMarker
        ++ (highlights.filter (fun h => h.page_number = pageNum)).map
            (fun h => LayerElem.highlightMarker h (renderHighlightColorClass h)) := by
  simp only [loadAnnotations]
  rw [foldl_renderNote, foldl_renderHighlight, List.append_assoc]

/-- Clearing-first makes the non-marker residue of a rendered layer equal to
that of the input layer. -/
theorem loadAnnotations_clear (pageNum : Int) (notes : List Note) (highlights : List Highlight)
    (layer : List LayerElem) :
    (loadAnnotations pageNum notes highlights layer).filter (fun e => !isAnnotationMarker e) =
      layer.filter (fun e => !isAnnotationMarker e) := by
  rw [loadAnnotations_eq]
  simp [List.filter_append, List.filter_filter, List.filter_map, Function.comp,
    isAnnotationMarker]

/-- C6: rendering a page's annotations is idempotent (old markers are always
cleared first), and the markers present afterwards are exactly one per
cached note and one per cached highlight matching the page number. -/
theorem loadAnnotations_idempotent_spec (pageNum : Int) (notes : List Note)
    (highlights : List Highlight) (layer : List LayerElem) :
    loadAnnotations pageNum notes highlights (loadAnnotations pageNum notes highlights layer) =
      loadAnnotations pageNum notes highlights layer ∧
    (loadAnnotations pageNum notes highlights layer).filter isAnnotationMarker =
      (notes.filter (fun n => n.page_number = pageNum)).map LayerElem.noteMarker
        ++ (highlights.filter (fun h => h.page_number = pageNum)).map
            (fun h => LayerElem.highlightMarker h (renderHighlightColorClass h)) := by
  constructor
  · rw [loadAnnotations_eq pageNum notes highlights
        (loadAnnotations pageNum notes highlights layer),
      loadAnnotations_clear, loadAnnotations_eq pageNum notes highlights layer]
  · rw [loadAnnotations_eq]
    simp [List.filter_append, List.filter_filter, List.filter_map, Function.comp,
      isAnnotationMarker]

/-- A cached highlight whose color is present but outside the palette. -/
def purpleHighlight : Highlight :=
  { id := 1, page_number := 0, coordinates := { x := 0, y := 0, w := 10, h := 10 },
    color := some "purple" }

/-- C9 counterexample: a cached highlight with the unrecognized color
`"purple"` is rendered with class `highlight-purple`, not the claimed
yellow default. -/
theorem renderHighlightColor_cex :
    renderHighlightColorClass purpleHighlight = "highlight-purple" ∧
    renderHighlightColorClass purpleHighlight ≠ "highlight-yellow" := by
  constructor <;> decide

/-- C9 amended: the rendered color class uses the highlight's color whenever
it is present and non-empty (palette or not) and falls back to yellow only
when the color is absent or empty; the drag-preview styling is the palette
entry when the name matches and the yellow style for any other name. -/
theorem renderHighlightColor_amended (hl : Highlight) (s c : String) :
    renderHighlightColorClass { hl with color := none } = "highlight-yellow" ∧
    renderHighlightColorClass { hl with color := some "" } = "highlight-yellow" ∧
    (s ≠ "" → renderHighlightColorClass { hl with color := some s } = "highlight-" ++ s) ∧
    (colorStylesEntry c = none →
      previewStyle c = ("rgba(255, 255, 0, 0.4)", "rgba(255, 165, 0, 0.8)")) ∧
    (∀ p, colorStylesEntry c = some p → previewStyle c = p) := by
  refine ⟨rfl, rfl, ?_, ?_, ?_⟩
  · intro hs
    simp [renderHighlightColorClass, hs]
  · intro hc
    simp [previewStyle, hc]
  · intro p hp
    simp [previewStyle, hp]

/-- Witness for C9's amended claim at concrete inputs: a green highlight
renders green, and the preview falls back to yellow for `"purple"` but uses
the pink entry for `"pink"`. -/
theorem renderHighlightColor_amended_witness :
    renderHighlightColorClass
      { id := 1, page_number := 0, coordinates := { x := 0, y := 0, w := 10, h := 10 },
        color := some "green" } = "highlight-green" ∧
    previewStyle "purple" = ("rgba(255, 255, 0, 0.4)", "rgba(255, 165, 0, 0.8)") ∧
    previewStyle "pink" = ("rgba(244, 114, 182, 0.4)", "rgba(244, 114, 182, 0.8)") := by
  refine ⟨(renderHighlightColor_amended
      { id := 1, page_number := 0, coordinates := { x := 0, y := 0, w := 10, h := 10 },
        color := none } "green" "purple").2.2.1 (by decide),
    (renderHighlightColor_amended
      { id := 1, page_number := 0, coordinates := { x := 0, y := 0, w := 10, h := 10 },
        color := none } "green" "purple").2.2.2.1 (by decide),
    (renderHighlightColor_amended
      { id := 1, page_number := 0, coordinates := { x := 0, y := 0, w := 10, h := 10 },
        color := none } "green" "pink").2.2.2.2 _ (by decide)⟩

/-- `wrapperExists` unfolded to its arithmetic meaning. -/
theorem wrapperExists_iff (totalPages : Nat) (i : Int) :
    wrapperExists totalPages i = true ↔ 1 ≤ i ∧ i ≤ (numSpreads totalPages : Int) := by
  simp [wrapperExists]

/-- Every state the `Flipbook` instance can reach keeps `currentSpread`
between 1 and the number of rendered spreads plus one. -/
theorem flipReachable_invariant (totalPages : Nat) (s : FlipState)
    (h : FlipReachable totalPages s) :
    1 ≤ s.currentSpread ∧ s.currentSpread ≤ (numSpreads totalPages : Int) + 1 := by
  induction h with
  | init =>
      refine ⟨le_refl 1, ?_⟩
      show (1 : Int) ≤ (numSpreads totalPages : Int) + 1
      omega
  | next _ ih =>
      rename_i s _
      unfold nextPage
      split
      · exact ih
      · split
        · rename_i hw
          rw [wrapperExists_iff] at hw
          refine ⟨?_, ?_⟩
          · show (1 : Int) ≤ s.currentSpread + 1
            omega
          · show s.currentSpread + 1 ≤ (numSpreads totalPages : Int) + 1
            omega
        · exact ih
  | prev _ ih =>
      rename_i s _
      unfold prevPage
      split
      · exact ih
      · split
        · exact ih
        · rename_i hgt
          split
          · refine ⟨?_, ?_⟩
            · show (1 : Int) ≤ s.currentSpread - 1
              omega
            · show s.currentSpread - 1 ≤ (numSpreads totalPages : Int) + 1
              omega
          · refine ⟨?_, ?_⟩
            · show (1 : Int) ≤ s.currentSpread - 1
              omega
            · show s.currentSpread - 1 ≤ (numSpreads totalPages : Int) + 1
              omega
  | animEnd _ ih =>
      rename_i s _
      exact ih

/-- C10: `currentSpread` starts at 1 and stays at least 1 in every reachable
state, never exceeding the number of rendered spreads plus one; `prevPage`
is a no-op while animating or when `currentSpread <= 1`, and `nextPage`
changes `currentSpread` only by incrementing it, and only when the wrapper
for the current spread exists. -/
theorem flipbook_currentSpread_spec (totalPages : Nat) (s : FlipState)
    (h : FlipReachable totalPages s) :
    1 ≤ s.currentSpread ∧ s.currentSpread ≤ (numSpreads totalPages : Int) + 1 ∧
    (s.isAnimating = true → prevPage totalPages s = s) ∧
    (s.currentSpread ≤ 1 → prevPage totalPages s = s) ∧
    ((nextPage totalPages s).currentSpread ≠ s.currentSpread →
      wrapperExists totalPages s.currentSpread = true ∧
      (nextPage totalPages s).currentSpread = s.currentSpread + 1) := by
  obtain ⟨h1, h2⟩ := flipReachable_invariant totalPages s h
  refine ⟨h1, h2, ?_, ?_, ?_⟩
  · intro ha
    simp [prevPage, ha]
  · intro hle
    unfold prevPage
    split
    · rfl
    · simp [hle]
  · intro hne
    unfold nextPage at hne ⊢
    split at hne
    · exact absurd rfl hne
    · split at hne
      · rename_i hnotAnim hw
        rw [if_neg hnotAnim, if_pos hw]
        exact ⟨hw, rfl⟩
      · exact absurd rfl hne

/-- Witness for C10 at the constructor's initial state. -/
theorem flipbook_currentSpread_spec_witness :
    1 ≤ (FlipState.mk 1 false).currentSpread ∧
    (FlipState.mk 1 false).currentSpread ≤ (numSpreads 5 : Int) + 1 :=
  ⟨(flipbook_currentSpread_spec 5 (FlipState.mk 1 false) FlipReachable.init).1,
   (flipbook_currentSpread_spec 5 (FlipState.mk 1 false) FlipReachable.init).2.1⟩
